import Mathlib

/-!
Verification of the Okta authentication / RBAC core of the repository.

The development shallowly embeds `src/okta_auth.py` (and the `require_role`
closure of `src/combined_server.py`).  Python strings that are manipulated
character-wise (raw tokens, URL paths, headers) are modelled as `List Char`
(`PyStr`); strings that are only compared for equality (claim fields, role
names, tool names, log/error messages) stay `String`.  Python integers are
`Int`.  The mutable module-level `token_cache` (a `cachetools.TTLCache` with
`maxsize=1000, ttl=3600`) is passed and returned explicitly; the `maxsize`
eviction policy is not modelled because no property here depends on it.

The behaviour of the external PyJWT library (`jwt.decode` with
`verify_signature/exp/iat/aud/iss` and `require=[exp,iat,sub,aud,iss]`) is
embedded in `jwt_decode`: PyJWT verifies the token signature first and only
then validates claims, in the order required-claims, `iat`, `exp`
(`exp <= now` counts as expired with zero leeway), audience, issuer; a
failing key lookup in `PyJWKClient.get_signing_key_from_jwt` raises a
generic (non-`InvalidSignatureError`) exception.  Theorems below do not
depend on the relative order of the audience and issuer checks.
-/

/-- Python strings seen as sequences of code points. -/
abbrev PyStr := List Char

/-- Python truthiness of an optional string: `None` and `""` are falsy. -/
def truthy : Option String → Bool
  | none => false
  | some s => !s.data.isEmpty

/-- `OktaConfig.__init__` (okta_auth.py lines 31-38): `issuer`, `audience`
and `client_id` come from the environment and may be absent. -/
structure OktaConfig where
  issuer : Option String
  audience : Option String
  client_id : Option String := none
deriving DecidableEq

/-- `self.jwks_uri = f"{self.issuer}/v1/keys" if self.issuer else None`
(okta_auth.py line 37). -/
def OktaConfig.jwks_uri (cfg : OktaConfig) : Option String :=
  if truthy cfg.issuer then some (cfg.issuer.getD "" ++ "/v1/keys") else none

/-- `is_configured` property (okta_auth.py lines 44-47):
`bool(self.issuer and self.audience and self.jwks_uri)`. -/
def OktaConfig.is_configured (cfg : OktaConfig) : Bool :=
  truthy cfg.issuer && truthy cfg.audience && truthy cfg.jwks_uri

/-- The decoded claim set of a token.  `jwt.decode` is called with
`require = [exp, iat, sub, aud, iss]`; `email`, `groups` and `scp` are read
downstream with `.get(..., default)`, so they are total here with the
Python defaults. -/
structure Claims where
  sub : String
  iss : String
  aud : String
  exp : Int
  iat : Int
  email : String := ""
  groups : List String := []
  scp : List String := []
deriving DecidableEq

/-- Semantic content of a raw token string, i.e. the facts the PyJWT
library establishes about it: whether `PyJWKClient.get_signing_key_from_jwt`
finds the signing key named by the token header (`keyFound`), whether the
RS256 signature verifies with that key (`sigValid`), whether the required
claims `exp`, `iat`, `sub`, `aud`, `iss` are all present
(`requiredPresent`), and the decoded payload itself. -/
structure TokenInfo where
  keyFound : Bool
  sigValid : Bool
  requiredPresent : Bool
  claims : Claims

/-- The cryptographic environment: every raw token string has fixed decoded
content and signature status.  Theorems quantify over this mapping. -/
abbrev TokenWorld := PyStr → TokenInfo

deriving instance DecidableEq for Except

/-- The exceptions of `jwt.decode` that okta_auth.py lines 132-146
distinguish; every other `jwt` exception lands in the `other` bucket of
the `except Exception` handler. -/
inductive JwtError
  | expiredSignature
  | invalidAudience
  | invalidIssuer
  | invalidSignature
  | other (msg : String)
deriving DecidableEq

/-- `jwt.decode` (okta_auth.py lines 105-119) as implemented by PyJWT:
signature verification first, then claim validation in the order
required-claims, `exp` (expired when `exp <= now`, leeway 0), audience,
issuer.  (`iat` validation only checks that `iat` is a number, which the
`Int` field guarantees.) -/
def jwt_decode (cfg : OktaConfig) (info : TokenInfo) (now : Int) :
    Except JwtError Claims :=
  if info.sigValid = false then .error .invalidSignature
  else if info.requiredPresent = false then .error (.other "missing required claim")
  else if info.claims.exp ≤ now then .error .expiredSignature
  else if cfg.audience ≠ some info.claims.aud then .error .invalidAudience
  else if cfg.issuer ≠ some info.claims.iss then .error .invalidIssuer
  else .ok info.claims

/-- The `AuthenticationError` raised by `validate_okta_token`.  In Python
it is a single exception class whose categories are distinguished by their
message; the constructors here are in bijection with the messages of
okta_auth.py lines 89 and 132-146 (see `authErrorMsg`). -/
inductive AuthError
  | notConfigured
  | expired
  | audienceMismatch
  | untrustedIssuer
  | signatureInvalid
  | validationFailed (msg : String)
deriving DecidableEq

/-- The message each `AuthenticationError` carries (okta_auth.py lines 89,
134, 137, 140, 143, 146). -/
def authErrorMsg : AuthError → String
  | .notConfigured => "Okta authentication is not configured"
  | .expired => "Token has expired. Please log in again."
  | .audienceMismatch => "Token audience mismatch"
  | .untrustedIssuer => "Token from untrusted issuer"
  | .signatureInvalid => "Token signature invalid"
  | .validationFailed msg => "Token validation failed: " ++ msg

/-- The `except` ladder of okta_auth.py lines 132-146: each `jwt` exception
is re-raised as the corresponding `AuthenticationError`. -/
def toAuthError : JwtError → AuthError
  | .expiredSignature => .expired
  | .invalidAudience => .audienceMismatch
  | .invalidIssuer => .untrustedIssuer
  | .invalidSignature => .signatureInvalid
  | .other msg => .validationFailed msg

/-- One entry of the module-level `token_cache = TTLCache(maxsize=1000,
ttl=3600)` (okta_auth.py line 23).  `TTLCache` stamps every entry with its
insertion time and expires it a fixed `ttl` seconds later. -/
structure CacheEntry where
  key : PyStr
  claims : Claims
  insertedAt : Int
deriving DecidableEq

abbrev TokenCache := List CacheEntry

/-- The fixed per-cache TTL of `token_cache` (okta_auth.py line 23). -/
def token_cache_ttl : Int := 3600

/-- A `TTLCache` entry is alive while `now < insertion time + ttl`. -/
def cacheAlive (e : CacheEntry) (now : Int) : Bool :=
  now < e.insertedAt + token_cache_ttl

/-- `cache_key in token_cache` / `token_cache[cache_key]` (okta_auth.py
lines 93-95): an expired entry behaves as absent. -/
def cacheLookup (cache : TokenCache) (key : PyStr) (now : Int) : Option Claims :=
  match cache.find? (fun e => e.key == key && cacheAlive e now) with
  | some e => some e.claims
  | none => none

/-- `token_cache[cache_key] = claims` (okta_auth.py line 124): `TTLCache`
replaces any previous entry under the key and stamps the new entry with
the insertion time. -/
def cacheInsert (cache : TokenCache) (key : PyStr) (claims : Claims)
    (now : Int) : TokenCache :=
  ⟨key, claims, now⟩ :: cache.filter (fun e => !(e.key == key))

/-- Result of one call to `validate_okta_token`: the returned claims or the
raised `AuthenticationError`, the token cache afterwards, and whether a
`PyJWKClient` JWKS fetch happened (the client is constructed afresh inside
the call, so every cache miss fetches the JWKS; a cache hit never does). -/
structure ValidateOut where
  result : Except AuthError Claims
  cache : TokenCache
  jwksFetched : Bool
deriving DecidableEq

/-- `validate_okta_token` (okta_auth.py lines 75-146).  The several
`time.time()` readings inside one call are modelled by the single instant
`now`.  Control flow: not-configured guard (line 88), cache probe with
`cache_key = access_token[:32]` (lines 92-95), JWKS signing-key lookup
(lines 101-102, failure lands in the generic `except Exception` branch),
`jwt.decode` (lines 105-119), caching of the claims when
`ttl = max(exp - now, 0)` is positive (lines 122-124), and the exception
translation of lines 132-146. -/
def validate_okta_token (world : TokenWorld) (cfg : OktaConfig)
    (cache : TokenCache) (raw : PyStr) (now : Int) : ValidateOut :=
  if cfg.is_configured = false then
    ⟨.error .notConfigured, cache, false⟩
  else
    match cacheLookup cache (raw.take 32) now with
    | some claims => ⟨.ok claims, cache, false⟩
    | none =>
      if (world raw).keyFound = false then
        ⟨.error (.validationFailed "Unable to find a signing key that matches"),
         cache, true⟩
      else
        match jwt_decode cfg (world raw) now with
        | .ok claims =>
          ⟨.ok claims,
           if 0 < max (claims.exp - now) 0 then
             cacheInsert cache (raw.take 32) claims now
           else cache,
           true⟩
        | .error e => ⟨.error (toAuthError e), cache, true⟩

/-- `ROLE_DEFINITIONS` (okta_auth.py lines 55-72), as role name paired with
its `allowed_tools` list (the `description` strings play no role). -/
def ROLE_DEFINITIONS : List (String × List String) :=
  [("mcp_viewer",
    ["echo_tool", "search_providers", "search_organizations", "lookup_npi"]),
   ("mcp_analyst",
    ["echo_tool", "search_providers", "search_organizations", "lookup_npi",
     "advanced_search"]),
   ("mcp_clinician",
    ["echo_tool", "search_providers", "search_organizations", "lookup_npi",
     "advanced_search"]),
   ("mcp_admin", ["*"])]

/-- `group in ROLE_DEFINITIONS` / `ROLE_DEFINITIONS[group]["allowed_tools"]`
(okta_auth.py lines 162-163). -/
def lookupRole (g : String) : Option (List String) :=
  (ROLE_DEFINITIONS.find? (fun p => p.1 == g)).map (fun p => p.2)

/-- The `for group in groups` loop of `get_user_permissions` (okta_auth.py
lines 159-168) with its early `return ["*"]`; the Python accumulator set is
modelled as a duplicate-free list, of which only membership is observed. -/
def permsLoop : List String → List String → List String
  | [], acc => acc
  | g :: rest, acc =>
    match lookupRole g with
    | some tools =>
      if tools.contains "*" then ["*"]
      else permsLoop rest (acc ++ tools.filter (fun t => !acc.contains t))
    | none => permsLoop rest acc

/-- `get_user_permissions` (okta_auth.py lines 149-168). -/
def get_user_permissions (groups : List String) : List String :=
  permsLoop groups []

/-- The `check_access` closure returned by `require_role(*allowed_roles)`
(okta_auth.py lines 181-199); `auth_groups` is `auth_context.get('groups',
[])`. -/
def require_role_check (cfg : OktaConfig) (allowed_roles : List String)
    (auth_groups : List String) : Bool :=
  if cfg.is_configured = false then true
  else if auth_groups.contains "mcp_admin" then true
  else allowed_roles.any (fun role => auth_groups.contains role)

/-- The `check_access` closure returned by `require_role` in
combined_server.py (lines 145-169): identical decision logic, except that
its dev-mode guard is `not okta_config.is_configured or jwt_verifier is
None`. -/
def cs_check_access (is_configured : Bool) (jwt_verifier_none : Bool)
    (allowed_roles : List String) (auth_groups : List String) : Bool :=
  if !is_configured || jwt_verifier_none then true
  else if auth_groups.contains "mcp_admin" then true
  else allowed_roles.any (fun role => auth_groups.contains role)

/-- `can_access_tool` (okta_auth.py lines 229-249). -/
def can_access_tool (cfg : OktaConfig) (tool_name : String)
    (groups : List String) : Bool :=
  if cfg.is_configured = false then true
  else if (get_user_permissions groups).contains "*" then true
  else (get_user_permissions groups).contains tool_name

/-- Python `str.startswith`. -/
def pyStartsWith : PyStr → PyStr → Bool
  | _, [] => true
  | [], _ :: _ => false
  | c :: s, p :: ps => c == p && pyStartsWith s ps

/-- Python `str.replace(pat, rep)` for a non-empty `pat`: every
non-overlapping occurrence, scanned left to right, is replaced.  (For an
empty `pat` Python interleaves `rep` everywhere; the middleware only ever
replaces the non-empty `"Bearer "`, and this model leaves the string
unchanged in that unused case.) -/
def pyReplace (pat rep : PyStr) : PyStr → PyStr
  | [] => []
  | c :: s =>
    if pat ≠ [] ∧ pyStartsWith (c :: s) pat = true then
      rep ++ pyReplace pat rep (List.drop (pat.length - 1) s)
    else
      c :: pyReplace pat rep s
termination_by s => s.length
decreasing_by
  · simp [List.length_drop]
    omega
  · simp

/-- The part of the dict stored in `request.state.user` that the claims
under verification observe (`sub`, `email`, `groups`). -/
structure StateUser where
  sub : String
  email : String
  groups : List String
deriving DecidableEq

/-- The synthesized dev identity `{"sub": "dev-user", "email":
"dev@localhost", "groups": ["mcp_admin"]}` (okta_auth.py line 269). -/
def devUser : StateUser :=
  { sub := "dev-user", email := "dev@localhost", groups := ["mcp_admin"] }

/-- The attributes `OktaAuthMiddleware.dispatch` may set on
`request.state`; `none` means the attribute was never assigned. -/
structure ReqState where
  user : Option StateUser := none
  user_id : Option String := none
  email : Option String := none
  groups : Option (List String) := none
  scopes : Option (List String) := none
  permissions : Option (List String) := none
  authenticated : Option Bool := none
deriving DecidableEq

/-- Outcome of `dispatch`: either `call_next(request)` is invoked with the
request state as assigned, or an `HTTPException` with the given status,
detail and optional `WWW-Authenticate` header is raised and the handler is
never invoked. -/
inductive MwResponse
  | next (state : ReqState)
  | httpError (status : Nat) (detail : String) (wwwAuthenticate : Option String)
deriving DecidableEq

/-- Result of one `dispatch` call: the response, the token cache afterwards,
and whether `validate_okta_token` was invoked at all. -/
structure DispatchOut where
  response : MwResponse
  cache : TokenCache
  validateCalled : Bool
deriving DecidableEq

/-- The `"Bearer "` scheme marker of okta_auth.py lines 276 and 283. -/
def bearer_sp : PyStr := "Bearer ".toList

/-- The default `public_paths` of `OktaAuthMiddleware.__init__`
(okta_auth.py line 259). -/
def default_public_paths : List PyStr :=
  ["/".toList, "/health".toList, "/metrics".toList, "/.well-known".toList]

/-- `OktaAuthMiddleware.dispatch` (okta_auth.py lines 261-314): public-path
bypass, dev-mode passthrough, the Bearer-scheme check on
`request.headers.get("Authorization", "")`, token extraction via
`auth_header.replace("Bearer ", "")`, delegation to `validate_okta_token`,
state attachment on success, and the 401 translation of
`AuthenticationError` (the `except Exception` 500 branch is unreachable in
this model because every failure of the embedded validator is an
`AuthError`). -/
def dispatch (world : TokenWorld) (cfg : OktaConfig)
    (public_paths : List PyStr) (cache : TokenCache) (path : PyStr)
    (authHeader : Option PyStr) (now : Int) : DispatchOut :=
  if public_paths.any (fun p => pyStartsWith path p) then
    ⟨.next {}, cache, false⟩
  else if cfg.is_configured = false then
    ⟨.next { user := some devUser, authenticated := some false }, cache, false⟩
  else if pyStartsWith (authHeader.getD []) bearer_sp = false then
    ⟨.httpError 401 "Missing or invalid Authorization header" (some "Bearer"),
     cache, false⟩
  else
    let v := validate_okta_token world cfg cache
      (pyReplace bearer_sp [] (authHeader.getD [])) now
    match v.result with
    | .ok claims =>
      ⟨.next { user := some ⟨claims.sub, claims.email, claims.groups⟩,
               user_id := some claims.sub,
               email := some claims.email,
               groups := some claims.groups,
               scopes := some claims.scp,
               permissions := some (get_user_permissions claims.groups),
               authenticated := some true },
       v.cache, true⟩
    | .error e =>
      ⟨.httpError 401 (authErrorMsg e)
        (some ("Bearer error=\"invalid_token\", error_description=\""
               ++ authErrorMsg e ++ "\"")),
       v.cache, true⟩

/-! ### Concrete fixtures used by witnesses and counterexamples -/

/-- A fully configured `OktaConfig`. -/
def cfgEx : OktaConfig :=
  { issuer := some "https://example.okta.com/oauth2/default",
    audience := some "api://default" }

/-- An unconfigured `OktaConfig` (no issuer in the environment). -/
def cfgDev : OktaConfig :=
  { issuer := none, audience := some "api://default" }

/-- A claim set matching `cfgEx`, expiring at instant 2000. -/
def claimsEx : Claims :=
  { sub := "user1", iss := "https://example.okta.com/oauth2/default",
    aud := "api://default", exp := 2000, iat := 900,
    email := "user1@example.com", groups := ["mcp_viewer"], scp := ["openid"] }

/-- A world in which every token decodes to `claimsEx` with a good
signature. -/
def worldEx : TokenWorld := fun _ =>
  { keyFound := true, sigValid := true, requiredPresent := true,
    claims := claimsEx }

/-! ### Helper lemmas about the validator -/

/-- A successful `jwt.decode` returns the token's own payload, and every
verification it performs passed: good signature, required claims present,
not expired at `now`, audience and issuer equal to the configured ones. -/
theorem jwt_decode_ok_facts (cfg : OktaConfig) (info : TokenInfo) (now : Int)
    (c : Claims) (h : jwt_decode cfg info now = .ok c) :
    c = info.claims ∧ info.sigValid = true ∧ info.requiredPresent = true
    ∧ now < info.claims.exp ∧ cfg.audience = some info.claims.aud
    ∧ cfg.issuer = some info.claims.iss := by
  unfold jwt_decode at h
  split at h
  next h1 => exact absurd h (by simp)
  next h1 =>
    split at h
    next h2 => exact absurd h (by simp)
    next h2 =>
      split at h
      next h3 => exact absurd h (by simp)
      next h3 =>
        split at h
        next h4 => exact absurd h (by simp)
        next h4 =>
          split at h
          next h5 => exact absurd h (by simp)
          next h5 =>
            refine ⟨(Except.ok.inj h).symm, ?_, ?_, by omega,
              not_not.mp h4, not_not.mp h5⟩
            · revert h1; cases info.sigValid <;> simp
            · revert h2; cases info.requiredPresent <;> simp

/-- `validate_okta_token` can only return claims when Okta is configured. -/
theorem validate_ok_configured (world : TokenWorld) (cfg : OktaConfig)
    (cache : TokenCache) (raw : PyStr) (now : Int) (c : Claims)
    (h : (validate_okta_token world cfg cache raw now).result = .ok c) :
    cfg.is_configured = true := by
  cases hc : cfg.is_configured
  · unfold validate_okta_token at h
    simp [hc] at h
  · rfl

/-- After a successful `validate_okta_token` call, the cache maps the
token's 32-character key to the returned claims at the very instant of the
call (either it already did — cache hit — or the fresh entry does). -/
theorem validate_ok_cached (world : TokenWorld) (cfg : OktaConfig)
    (cache : TokenCache) (raw : PyStr) (now : Int) (c : Claims)
    (h : (validate_okta_token world cfg cache raw now).result = .ok c) :
    cacheLookup (validate_okta_token world cfg cache raw now).cache
      (raw.take 32) now = some c := by
  have hcfg := validate_ok_configured world cfg cache raw now c h
  unfold validate_okta_token at h ⊢
  simp only [hcfg, Bool.true_eq_false, if_false] at h ⊢
  cases hlk : cacheLookup cache (raw.take 32) now with
  | some cl =>
    simp only [hlk] at h ⊢
    injection h with h
    simpa using h
  | none =>
    simp only [hlk] at h ⊢
    cases hkf : (world raw).keyFound with
    | false => simp [hkf] at h
    | true =>
      simp only [hkf, Bool.true_eq_false, if_false] at h ⊢
      cases hd : jwt_decode cfg (world raw) now with
      | error e => simp [hd] at h
      | ok claims =>
        simp only [hd] at h ⊢
        injection h with h
        subst h
        obtain ⟨hcl, -, -, hexp, -, -⟩ :=
          jwt_decode_ok_facts cfg (world raw) now claims hd
        have hmax : 0 < max (claims.exp - now) 0 := by
          rw [hcl]; omega
        simp only [hmax, if_pos]
        unfold cacheLookup cacheInsert
        rw [List.find?_cons]
        simp [cacheAlive, token_cache_ttl]

/-! ### C1 — cache TTL vs the token's `exp` claim -/

/-- A claim set that expires ten seconds after the validation instant. -/
def c1Claims : Claims := { claimsEx with exp := 1010 }

/-- A world whose every token decodes to `c1Claims` with a good
signature. -/
def c1World : TokenWorld := fun _ =>
  { keyFound := true, sigValid := true, requiredPresent := true,
    claims := c1Claims }

/-- Claim C1 (code bug): the claim says a fresh cache entry's TTL is
`min(configured_max_ttl, claims.exp - now)`, so here `min(3600, 10) = 10`
seconds, and the entry must never outlive `exp = 1010`.  The code computes
`ttl = max(exp - now, 0)` but only uses it as a positivity guard: the
insert goes into a `TTLCache` whose fixed per-cache TTL is 3600 s
(okta_auth.py lines 23 and 122-124).  Evaluating the embedded code: a
token validated at `now = 1000` with `exp = 1010` is still served from the
cache at time 2000 — 990 seconds after its `exp`, and 990 seconds after
the instant `1000 + min(3600, exp - 1000)` at which the claim says the
entry must be gone. -/
theorem C1_cache_entry_outlives_exp :
    (validate_okta_token c1World cfgEx [] ("tokC".toList) 1000).result
      = .ok c1Claims
    ∧ c1Claims.exp = 1010
    ∧ 1000 + min token_cache_ttl (c1Claims.exp - 1000) < 2000
    ∧ cacheLookup
        (validate_okta_token c1World cfgEx [] ("tokC".toList) 1000).cache
        (("tokC".toList).take 32) 2000 = some c1Claims := by
  decide

/-! ### C2 — failure taxonomy of `validate_okta_token` -/

/-- The amended failure taxonomy of `validate_okta_token` on a cache miss:
every category of failing token is mapped to its own typed
`AuthenticationError`, and claims are returned only when every check
passed.  (Signature verification precedes the expiry check, and the
required-claims check precedes it as well, so those clauses carry the
corresponding hypotheses.) -/
def validateMissSpec (world : TokenWorld) (cfg : OktaConfig)
    (cache : TokenCache) (raw : PyStr) (now : Int) : Prop :=
  let v := validate_okta_token world cfg cache raw now
  let info := world raw
  (info.keyFound = true → info.sigValid = false →
    v.result = .error .signatureInvalid)
  ∧ (info.keyFound = true → info.sigValid = true →
      info.requiredPresent = true → info.claims.exp ≤ now →
      v.result = .error .expired)
  ∧ (info.keyFound = true → info.sigValid = true →
      info.requiredPresent = true → now < info.claims.exp →
      cfg.audience ≠ some info.claims.aud →
      cfg.issuer = some info.claims.iss →
      v.result = .error .audienceMismatch)
  ∧ (info.keyFound = true → info.sigValid = true →
      info.requiredPresent = true → now < info.claims.exp →
      cfg.audience = some info.claims.aud →
      cfg.issuer ≠ some info.claims.iss →
      v.result = .error .untrustedIssuer)
  ∧ (info.keyFound = true → info.sigValid = true →
      info.requiredPresent = false →
      ∃ m, v.result = .error (.validationFailed m))
  ∧ (info.keyFound = false → ∃ m, v.result = .error (.validationFailed m))
  ∧ (∀ c, v.result = .ok c →
      c = info.claims ∧ info.keyFound = true ∧ info.sigValid = true
      ∧ info.requiredPresent = true ∧ now < info.claims.exp
      ∧ cfg.audience = some info.claims.aud
      ∧ cfg.issuer = some info.claims.iss)

/-- Claim C2, counterexample: a token whose `exp` (10) is long past at
`now = 100` and whose signature is invalid does NOT fail with the expired
category — PyJWT verifies the signature before it looks at `exp`, so
`validate_okta_token` raises the bad-signature `AuthenticationError`
instead, refuting "fails with the expired category regardless of signature
validity". -/
theorem C2_counterexample_expired_bad_signature :
    (((fun _ => { keyFound := true, sigValid := false,
                  requiredPresent := true,
                  claims := { claimsEx with exp := 10 } } : TokenWorld)
        (("tokB".toList))).claims.exp < 100)
    ∧ (validate_okta_token
        (fun _ => { keyFound := true, sigValid := false,
                    requiredPresent := true,
                    claims := { claimsEx with exp := 10 } })
        cfgEx [] ("tokB".toList) 100).result = .error .signatureInvalid
    ∧ AuthError.signatureInvalid ≠ AuthError.expired := by
  decide

/-- Claim C2 (amended): on a cache miss with authentication configured,
`validate_okta_token` fails with the expired category for every
expired token whose signature is valid (signature verification comes
first, so an invalid signature yields the bad-signature category even for
expired tokens); it fails with the bad-signature category for every token
whose signature fails verification with the matching JWKS key; audience
mismatch, issuer mismatch, missing required claims and a missing signing
key each raise their own typed `AuthenticationError`; and claims are
returned only when every verification passed. -/
theorem C2_amended_failure_taxonomy (world : TokenWorld) (cfg : OktaConfig)
    (cache : TokenCache) (raw : PyStr) (now : Int)
    (hcfg : cfg.is_configured = true)
    (hmiss : cacheLookup cache (raw.take 32) now = none) :
    validateMissSpec world cfg cache raw now := by
  unfold validateMissSpec
  refine ⟨?_, ?_, ?_, ?_, ?_, ?_, ?_⟩
  · intro hk hs
    simp [validate_okta_token, hcfg, hmiss, hk, jwt_decode, hs, toAuthError]
  · intro hk hs hr hexp
    simp [validate_okta_token, hcfg, hmiss, hk, jwt_decode, hs, hr, hexp,
      toAuthError]
  · intro hk hs hr hexp haud hiss
    have hexp' : ¬(world raw).claims.exp ≤ now := by omega
    simp [validate_okta_token, hcfg, hmiss, hk, jwt_decode, hs, hr, hexp',
      haud, toAuthError]
  · intro hk hs hr hexp haud hiss
    have hexp' : ¬(world raw).claims.exp ≤ now := by omega
    simp [validate_okta_token, hcfg, hmiss, hk, jwt_decode, hs, hr, hexp',
      haud, hiss, toAuthError]
  · intro hk hs hr
    refine ⟨"missing required claim", ?_⟩
    simp [validate_okta_token, hcfg, hmiss, hk, jwt_decode, hs, hr,
      toAuthError]
  · intro hk
    refine ⟨"Unable to find a signing key that matches", ?_⟩
    simp [validate_okta_token, hcfg, hmiss, hk]
  · intro c hok
    unfold validate_okta_token at hok
    simp only [hcfg, Bool.true_eq_false, if_false, hmiss] at hok
    cases hk : (world raw).keyFound with
    | false => simp [hk] at hok
    | true =>
      simp only [hk, Bool.true_eq_false, if_false] at hok
      cases hd : jwt_decode cfg (world raw) now with
      | error e => simp [hd] at hok
      | ok claims =>
        simp only [hd] at hok
        obtain ⟨hcl, h2, h3, h4, h5, h6⟩ :=
          jwt_decode_ok_facts cfg (world raw) now claims hd
        injection hok with hok
        exact ⟨by rw [← hok, hcl], rfl, h2, h3, h4, h5, h6⟩

/-- Witness for the amended C2 at a concrete input. -/
theorem C2_amended_failure_taxonomy_witness :
    validateMissSpec worldEx cfgEx [] ("tokB".toList) 100 :=
  C2_amended_failure_taxonomy worldEx cfgEx [] ("tokB".toList) 100
    (by decide) (by decide)

/-! ### C3 — 32-character prefix aliasing of the token cache -/

/-- Claim C3: the cache fingerprint is the plain 32-character prefix of the
raw token (okta_auth.py line 92), so after a successful validation of `t1`
any distinct token `t2` with the same first 32 characters is answered from
`t1`'s cache entry at once: the call returns `t1`'s claims, fetches no
JWKS, and leaves the cache untouched.  Nothing in the statement constrains
`world t2` — the second token's signature and claims are never examined. -/
theorem C3_prefix_alias_returns_cached_claims (world : TokenWorld)
    (cfg : OktaConfig) (cache : TokenCache) (t1 t2 : PyStr) (now : Int)
    (c : Claims) (_hne : t1 ≠ t2) (hpre : t2.take 32 = t1.take 32)
    (h : (validate_okta_token world cfg cache t1 now).result = .ok c) :
    validate_okta_token world cfg
        (validate_okta_token world cfg cache t1 now).cache t2 now
      = ⟨.ok c, (validate_okta_token world cfg cache t1 now).cache, false⟩ := by
  have hcfg := validate_ok_configured world cfg cache t1 now c h
  have hcached := validate_ok_cached world cfg cache t1 now c h
  set cache1 := (validate_okta_token world cfg cache t1 now).cache with hc1
  unfold validate_okta_token
  simp [hcfg, hpre, hcached]

/-- First witness token: 32 copies of `A` followed by `1`. -/
def c3tok1 : PyStr := "AAAAAAAAAAAAAAAAAAAAAAAAAAAAAAAA1".toList

/-- Second witness token: same 32-character prefix, different suffix. -/
def c3tok2 : PyStr := "AAAAAAAAAAAAAAAAAAAAAAAAAAAAAAAA2".toList

/-- Witness for C3 at a concrete input. -/
theorem C3_prefix_alias_returns_cached_claims_witness :
    validate_okta_token worldEx cfgEx
        (validate_okta_token worldEx cfgEx [] c3tok1 1000).cache c3tok2 1000
      = ⟨.ok claimsEx,
         (validate_okta_token worldEx cfgEx [] c3tok1 1000).cache, false⟩ :=
  C3_prefix_alias_returns_cached_claims worldEx cfgEx [] c3tok1 c3tok2 1000
    claimsEx (by decide) (by decide) (by decide)

/-! ### C4 — idempotent revalidation of the identical token -/

/-- Claim C4: revalidating the very same token string at an instant where
its fresh cache entry is alive (here: immediately) returns the identical
claims through a cache hit — no JWKS fetch and no cache change. -/
theorem C4_second_call_is_cache_hit (world : TokenWorld) (cfg : OktaConfig)
    (cache : TokenCache) (raw : PyStr) (now : Int) (c : Claims)
    (h : (validate_okta_token world cfg cache raw now).result = .ok c) :
    (validate_okta_token world cfg
        (validate_okta_token world cfg cache raw now).cache raw now).result
      = .ok c
    ∧ (validate_okta_token world cfg
        (validate_okta_token world cfg cache raw now).cache raw now).jwksFetched
      = false
    ∧ (validate_okta_token world cfg
        (validate_okta_token world cfg cache raw now).cache raw now).cache
      = (validate_okta_token world cfg cache raw now).cache := by
  have hcfg := validate_ok_configured world cfg cache raw now c h
  have hcached := validate_ok_cached world cfg cache raw now c h
  set cache1 := (validate_okta_token world cfg cache raw now).cache with hc1
  have hsecond : validate_okta_token world cfg cache1 raw now
      = ⟨.ok c, cache1, false⟩ := by
    unfold validate_okta_token
    simp [hcfg, hcached]
  rw [hsecond]
  exact ⟨rfl, rfl, rfl⟩

/-- Witness token for C4. -/
def c4tok : PyStr := "tokD".toList

/-- Witness for C4 at a concrete input. -/
theorem C4_second_call_is_cache_hit_witness :
    (validate_okta_token worldEx cfgEx
        (validate_okta_token worldEx cfgEx [] c4tok 1000).cache c4tok 1000).result
      = .ok claimsEx
    ∧ (validate_okta_token worldEx cfgEx
        (validate_okta_token worldEx cfgEx [] c4tok 1000).cache c4tok 1000).jwksFetched
      = false
    ∧ (validate_okta_token worldEx cfgEx
        (validate_okta_token worldEx cfgEx [] c4tok 1000).cache c4tok 1000).cache
      = (validate_okta_token worldEx cfgEx [] c4tok 1000).cache :=
  C4_second_call_is_cache_hit worldEx cfgEx [] c4tok 1000 claimsEx (by decide)

/-! ### C5-C7 — role-based access checks -/

/-- The `for group in groups` loop returns `["*"]` as soon as it reaches
`mcp_admin`, whatever was accumulated before: no other role's
`allowed_tools` contains `"*"`. -/
theorem permsLoop_admin (gs : List String) (acc : List String)
    (h : gs.contains "mcp_admin" = true) : permsLoop gs acc = ["*"] := by
  induction gs generalizing acc with
  | nil => simp [List.contains] at h
  | cons g rest ih =>
    by_cases hg : g = "mcp_admin"
    · subst hg
      have hl : lookupRole "mcp_admin" = some ["*"] := by decide
      simp [permsLoop, hl]
    · have hr : rest.contains "mcp_admin" = true := by
        simp only [List.contains, List.elem_eq_mem, decide_eq_true_eq] at h ⊢
        rcases List.mem_cons.mp h with h | h
        · exact absurd h.symm hg
        · exact h
      cases hl : lookupRole g with
      | none =>
        simp only [permsLoop, hl]
        exact ih _ hr
      | some tools =>
        by_cases hstar : "*" ∈ tools
        · simp [permsLoop, hl, hstar]
        · simp only [permsLoop, hl]
          rw [if_neg (by simpa [List.contains] using hstar)]
          exact ih _ hr

/-- `get_user_permissions` of any group list containing `mcp_admin` is the
wildcard list `["*"]` (okta_auth.py lines 164-165). -/
theorem get_user_permissions_admin (groups : List String)
    (h : groups.contains "mcp_admin" = true) :
    get_user_permissions groups = ["*"] :=
  permsLoop_admin groups [] h

/-- Claim C5: `mcp_admin` in the caller's groups permits everything —
`require_role`'s `check_access` in okta_auth.py, the `check_access` of
combined_server.py (for any configuration state), and `can_access_tool`
for any tool name, all return permit regardless of the allowed-role set. -/
theorem C5_admin_wildcard_permits_everything (cfg : OktaConfig)
    (allowed_roles : List String) (groups : List String) (tool : String)
    (b jn : Bool) (h : groups.contains "mcp_admin" = true) :
    require_role_check cfg allowed_roles groups = true
    ∧ cs_check_access b jn allowed_roles groups = true
    ∧ can_access_tool cfg tool groups = true := by
  have hmem : "mcp_admin" ∈ groups := by
    simpa [List.contains] using h
  refine ⟨?_, ?_, ?_⟩
  · by_cases hc : cfg.is_configured = false <;>
      simp [require_role_check, hc, hmem]
  · unfold cs_check_access
    split
    · rfl
    · simp [hmem]
  · by_cases hc : cfg.is_configured = false
    · simp [can_access_tool, hc]
    · simp [can_access_tool, hc, get_user_permissions_admin groups h]

/-- Witness for C5 at a concrete input. -/
theorem C5_admin_wildcard_permits_everything_witness :
    require_role_check cfgEx ["mcp_analyst"] ["mcp_viewer", "mcp_admin"] = true
    ∧ cs_check_access true false ["mcp_analyst"] ["mcp_viewer", "mcp_admin"] = true
    ∧ can_access_tool cfgEx "execute_snowflake_query" ["mcp_viewer", "mcp_admin"] = true :=
  C5_admin_wildcard_permits_everything cfgEx ["mcp_analyst"]
    ["mcp_viewer", "mcp_admin"] "execute_snowflake_query" true false (by decide)

/-- Claim C6: with authentication configured and no `mcp_admin` wildcard,
both `check_access` closures permit exactly when some allowed role is
among the caller's groups (non-empty intersection); in particular a pure
`mcp_viewer` passes a viewer-analyst-admin gate and is denied by an
analyst-admin gate. -/
theorem C6_permit_iff_intersection (cfg : OktaConfig)
    (allowed_roles : List String) (groups : List String)
    (hcfg : cfg.is_configured = true)
    (hadm : groups.contains "mcp_admin" = false) :
    (require_role_check cfg allowed_roles groups = true
      ↔ ∃ r ∈ allowed_roles, r ∈ groups)
    ∧ (cs_check_access true false allowed_roles groups = true
      ↔ ∃ r ∈ allowed_roles, r ∈ groups)
    ∧ require_role_check cfg ["mcp_viewer", "mcp_analyst", "mcp_admin"]
        ["mcp_viewer"] = true
    ∧ require_role_check cfg ["mcp_analyst", "mcp_admin"]
        ["mcp_viewer"] = false := by
  have hadm' : "mcp_admin" ∉ groups := by
    simpa [List.contains] using hadm
  refine ⟨?_, ?_, ?_, ?_⟩
  · simp [require_role_check, hcfg, hadm', List.any_eq_true, List.contains]
  · simp [cs_check_access, hadm', List.any_eq_true, List.contains]
  · simp [require_role_check, hcfg]
  · simp [require_role_check, hcfg]

/-- Witness for C6 at a concrete input. -/
theorem C6_permit_iff_intersection_witness :
    (require_role_check cfgEx ["mcp_analyst", "mcp_clinician"] ["mcp_viewer"] = true
      ↔ ∃ r ∈ ["mcp_analyst", "mcp_clinician"], r ∈ ["mcp_viewer"])
    ∧ (cs_check_access true false ["mcp_analyst", "mcp_clinician"] ["mcp_viewer"] = true
      ↔ ∃ r ∈ ["mcp_analyst", "mcp_clinician"], r ∈ ["mcp_viewer"])
    ∧ require_role_check cfgEx ["mcp_viewer", "mcp_analyst", "mcp_admin"]
        ["mcp_viewer"] = true
    ∧ require_role_check cfgEx ["mcp_analyst", "mcp_admin"]
        ["mcp_viewer"] = false :=
  C6_permit_iff_intersection cfgEx ["mcp_analyst", "mcp_clinician"]
    ["mcp_viewer"] (by decide) (by decide)

/-- Claim C7: with no issuer or no audience configured, `is_configured` is
false and both `check_access` (for any allowed-role set and any group
list) and `can_access_tool` (for any tool name and any group list) return
permit. -/
theorem C7_unconfigured_always_permits (cfg : OktaConfig)
    (allowed_roles : List String) (groups : List String) (tool : String)
    (h : cfg.issuer = none ∨ cfg.audience = none) :
    require_role_check cfg allowed_roles groups = true
    ∧ can_access_tool cfg tool groups = true := by
  have hc : cfg.is_configured = false := by
    rcases h with h | h <;>
      simp [OktaConfig.is_configured, truthy, h]
  simp [require_role_check, can_access_tool, hc]

/-- Witness for C7 at a concrete input. -/
theorem C7_unconfigured_always_permits_witness :
    require_role_check cfgDev ["mcp_admin"] [] = true
    ∧ can_access_tool cfgDev "execute_snowflake_query" [] = true :=
  C7_unconfigured_always_permits cfgDev ["mcp_admin"] [] "execute_snowflake_query"
    (Or.inl rfl)

/-! ### C8-C10 — `OktaAuthMiddleware.dispatch` -/

/-- Claim C8: on a protected (non-public) path with authentication not
configured, `dispatch` sets `request.state.user` to the synthesized dev
identity — whose groups contain `mcp_admin` — marks
`request.state.authenticated = False`, leaves the cache alone, never calls
the validator, and passes the call through to the handler. -/
theorem C8_dev_mode_synthesizes_admin_identity (world : TokenWorld)
    (cfg : OktaConfig) (public_paths : List PyStr) (cache : TokenCache)
    (path : PyStr) (authHeader : Option PyStr) (now : Int)
    (hpub : public_paths.any (fun p => pyStartsWith path p) = false)
    (hcfg : cfg.is_configured = false) :
    dispatch world cfg public_paths cache path authHeader now
      = ⟨.next { user := some devUser, authenticated := some false },
         cache, false⟩
    ∧ devUser.groups.contains "mcp_admin" = true := by
  refine ⟨?_, by decide⟩
  simp [dispatch, hpub, hcfg]

/-- Witness for C8 at a concrete input. -/
theorem C8_dev_mode_synthesizes_admin_identity_witness :
    dispatch worldEx cfgDev ["/health".toList] [] "/mcp".toList none 0
      = ⟨.next { user := some devUser, authenticated := some false },
         [], false⟩
    ∧ devUser.groups.contains "mcp_admin" = true :=
  C8_dev_mode_synthesizes_admin_identity worldEx cfgDev ["/health".toList]
    [] "/mcp".toList none 0 (by decide) (by decide)

/-- Claim C9: on a protected path with authentication configured, a missing
or non-Bearer `Authorization` header yields a 401 with a
`WWW-Authenticate: Bearer` challenge, without ever calling the validator or
the handler; and when a Bearer token is present but validation fails, the
401 carries the annotated
`Bearer error="invalid_token", error_description="..."` challenge and the
handler is again never invoked. -/
theorem C9_unauthorized_gets_401_with_challenge (world : TokenWorld)
    (cfg : OktaConfig) (public_paths : List PyStr) (cache : TokenCache)
    (path : PyStr) (authHeader : Option PyStr) (now : Int)
    (hpub : public_paths.any (fun p => pyStartsWith path p) = false)
    (hcfg : cfg.is_configured = true) :
    (pyStartsWith (authHeader.getD []) bearer_sp = false →
      dispatch world cfg public_paths cache path authHeader now
        = ⟨.httpError 401 "Missing or invalid Authorization header"
             (some "Bearer"), cache, false⟩)
    ∧ (∀ e : AuthError,
        pyStartsWith (authHeader.getD []) bearer_sp = true →
        (validate_okta_token world cfg cache
          (pyReplace bearer_sp [] (authHeader.getD [])) now).result
          = .error e →
        dispatch world cfg public_paths cache path authHeader now
          = ⟨.httpError 401 (authErrorMsg e)
               (some ("Bearer error=\"invalid_token\", error_description=\""
                      ++ authErrorMsg e ++ "\"")),
             (validate_okta_token world cfg cache
               (pyReplace bearer_sp [] (authHeader.getD [])) now).cache,
             true⟩) := by
  constructor
  · intro hb
    simp [dispatch, hpub, hcfg, hb]
  · intro e hb hv
    simp [dispatch, hpub, hcfg, hb, hv]

/-- Witness for C9 at a concrete input (no `Authorization` header at all). -/
theorem C9_unauthorized_gets_401_with_challenge_witness :
    (pyStartsWith ((none : Option PyStr).getD []) bearer_sp = false →
      dispatch worldEx cfgEx ["/health".toList] [] "/mcp".toList none 0
        = ⟨.httpError 401 "Missing or invalid Authorization header"
             (some "Bearer"), [], false⟩)
    ∧ (∀ e : AuthError,
        pyStartsWith ((none : Option PyStr).getD []) bearer_sp = true →
        (validate_okta_token worldEx cfgEx []
          (pyReplace bearer_sp [] ((none : Option PyStr).getD [])) 0).result
          = .error e →
        dispatch worldEx cfgEx ["/health".toList] [] "/mcp".toList none 0
          = ⟨.httpError 401 (authErrorMsg e)
               (some ("Bearer error=\"invalid_token\", error_description=\""
                      ++ authErrorMsg e ++ "\"")),
             (validate_okta_token worldEx cfgEx []
               (pyReplace bearer_sp [] ((none : Option PyStr).getD [])) 0).cache,
             true⟩) :=
  C9_unauthorized_gets_401_with_challenge worldEx cfgEx ["/health".toList]
    [] "/mcp".toList none 0 (by decide) (by decide)

/-- Claim C10: a request whose path starts with one of the configured
public path prefixes passes straight through: the handler is called with
the request state untouched, the validator is never invoked, and the cache
is unchanged. -/
theorem C10_public_path_passthrough (world : TokenWorld) (cfg : OktaConfig)
    (public_paths : List PyStr) (cache : TokenCache) (path : PyStr)
    (authHeader : Option PyStr) (now : Int)
    (hpub : public_paths.any (fun p => pyStartsWith path p) = true) :
    dispatch world cfg public_paths cache path authHeader now
      = ⟨.next {}, cache, false⟩ := by
  simp [dispatch, hpub]

/-- Witness for C10: `/health` with no `Authorization` header under the
default public path list. -/
theorem C10_public_path_passthrough_witness :
    dispatch worldEx cfgEx default_public_paths [] "/health".toList none 0
      = ⟨.next {}, [], false⟩ :=
  C10_public_path_passthrough worldEx cfgEx default_public_paths []
    "/health".toList none 0 (by decide)
